import Mathlib

/-!
Shallow embedding of `src/backend/carenotes_api.py` (the CareNotes FastAPI
service backed by a SQLite `notes` table) and verification of its
request-handling contract.

Modelling conventions:

* A database row of the `notes` table is a `StoredNote`; the SQLite
  `AUTOINCREMENT` sequence is the `seq` field of `Store` (it records the
  largest id ever assigned and never decreases, so ids are never reused).
* The pydantic request model `Note` (lines 73-85) is `Note`; a raw request
  body in which fields may be absent is `RawNote`, and `parseNote` models
  pydantic's required-field validation (a missing field is rejected with a
  422 validation error before the handler runs; an empty string is a valid
  `str` and passes).
* `fastapi.HTTPException` and the 422 validation error are the `Exc`
  inductive; `pyStr` is Python's `str(e)` on an `HTTPException`
  (`"{status_code}: {detail}"`), and `wrap500` is the handlers' uniform
  `except Exception as e: raise HTTPException(500, f"Internal Server Error: {str(e)}")`
  clause.  An `HTTPException` raised *inside* a handler's `try` block is an
  `Exception`, so it is caught by that clause and resurfaces as a 500.
* Each handler returns an `HRes`: the response (or exception), the store
  after the request, and two booleans tracking the sqlite connection of the
  request: `connOpened` (was `get_db_connection()` reached) and `connClosed`
  (was every opened connection closed before the handler returned or raised).
-/

namespace CareNotes

/-- The pydantic `Note` request/response model (lines 73-85): four required
`str` fields, no `id` field. -/
structure Note where
  residentName : String
  dateTime : String
  content : String
  authorName : String
deriving Repr, DecidableEq

/-- One row of the `notes` table (lines 40-46): the auto-assigned `id`
plus the four text columns.  Also the shape of the dicts the handlers
build from rows (lines 112-118 and 153). -/
structure StoredNote where
  id : Nat
  residentName : String
  dateTime : String
  content : String
  authorName : String
deriving Repr, DecidableEq

/-- The durable state: the rows of the `notes` table in insertion (rowid)
order, and the `AUTOINCREMENT` sequence value (largest id ever assigned;
SQLite's `AUTOINCREMENT` keyword guarantees a deleted row's id is never
handed out again). -/
structure Store where
  rows : List StoredNote
  seq : Nat
deriving Repr, DecidableEq

/-- The `{"message": ...}` response body of a successful delete (line 216). -/
structure Msg where
  message : String
deriving Repr, DecidableEq

/-- Exceptions observable at the wire: `http s d` is
`HTTPException(status_code := s, detail := d)`; `validation m` is the 422
`RequestValidationError` FastAPI produces when the request body does not
satisfy the pydantic model. -/
inductive Exc where
  | http (status : Nat) (detail : String)
  | validation (msg : String)
deriving Repr, DecidableEq

/-- The HTTP status code a raised `Exc` produces. -/
def Exc.statusCode : Exc → Nat
  | .http s _ => s
  | .validation _ => 422

/-- Python's `str(e)` for a starlette `HTTPException`:
`f"{self.status_code}: {self.detail}"`. -/
def pyStr : Exc → String
  | .http s d => toString s ++ ": " ++ d
  | .validation m => m

/-- The handlers' shared `except Exception as e: raise HTTPException(500,
f"Internal Server Error: {str(e)}")` clause (lines 119-120, 158-160,
190-191, 218-220) applied to the exception it caught. -/
def wrap500 (e : Exc) : Exc :=
  .http 500 ("Internal Server Error: " ++ pyStr e)

/-- The outcome of one request: response or exception, the store after the
request, whether a database connection was opened for it, and whether every
opened connection was closed before the handler returned or raised
(`connClosed = true` vacuously when none was opened). -/
structure HRes (α : Type) where
  resp : Except Exc α
  store : Store
  connOpened : Bool
  connClosed : Bool
deriving Repr

/-- `INSERT INTO notes (residentName, dateTime, content, authorName) VALUES
(?, ?, ?, ?)` followed by `cursor.lastrowid` (lines 104-108): the new row
gets the next sequence value as id, and the sequence advances. -/
def storeInsert (s : Store) (n : Note) : Store × Nat :=
  let new_id := s.seq + 1
  ({ rows := s.rows ++ [⟨new_id, n.residentName, n.dateTime, n.content, n.authorName⟩],
     seq := new_id }, new_id)

/-- An empty database: no rows, sequence at 0 (first assigned id is 1). -/
def emptyStore : Store := { rows := [], seq := 0 }

/-- `create_database` (lines 30-57): create the table if absent, and insert
the two seed notes exactly when `SELECT COUNT(*) FROM notes` is 0. -/
def create_database (s : Store) : Store :=
  if s.rows.length = 0 then
    let s1 := (storeInsert s ⟨"Alice Johnson", "2024-09-17T10:30:00Z",
      "Medication administered as scheduled.", "Nurse Smith"⟩).1
    (storeInsert s1 ⟨"Bob Williams", "2024-09-17T11:45:00Z",
      "Assisted with physical therapy exercises.", "Dr. Brown"⟩).1
  else s

/-- The store right after first startup: the two seed notes, ids 1 and 2. -/
def seedStore : Store := create_database emptyStore

/-- `create_note` (lines 88-120) given an already-validated `Note`: insert
the row, commit, close, and return the dict carrying the new id together
with the four submitted fields (lines 112-118). -/
def create_note (s : Store) (note : Note) : HRes StoredNote :=
  let (s', new_id) := storeInsert s note
  { resp := .ok ⟨new_id, note.residentName, note.dateTime, note.content, note.authorName⟩,
    store := s',
    connOpened := true,
    connClosed := true }

/-- A request body for `POST /notes/create` before pydantic validation:
each field may be absent. -/
structure RawNote where
  residentName : Option String
  dateTime : Option String
  content : Option String
  authorName : Option String
deriving Repr, DecidableEq

/-- Pydantic validation of the `Note` model: every field is a required
`str`, so a missing field yields a 422 validation error; any present string
(including the empty string) is accepted — the model declares no
non-emptiness constraint. -/
def parseNote (r : RawNote) : Except Exc Note :=
  match r with
  | ⟨some a, some b, some c, some d⟩ => .ok ⟨a, b, c, d⟩
  | _ => .error (.validation "field required")

/-- The full `POST /notes/create` endpoint: FastAPI validates the body
against the `Note` model before calling the handler; a validation failure
never reaches the handler, so no connection is opened and the store is
untouched. -/
def create_endpoint (s : Store) (r : RawNote) : HRes StoredNote :=
  match parseNote r with
  | .error e => { resp := .error e, store := s, connOpened := false, connClosed := true }
  | .ok n => create_note s n

/-- The response body actually sent for a create: the decorator declares
`response_model=Note` (line 88), so FastAPI serializes the handler's return
dict through the `Note` model, which keeps exactly the four `Note` fields. -/
def noteOfRow (d : StoredNote) : Note :=
  ⟨d.residentName, d.dateTime, d.content, d.authorName⟩

/-- The wire-level body of `POST /notes/create`: the handler's dict filtered
by `response_model=Note`. -/
def create_wire (s : Store) (note : Note) : Except Exc Note :=
  (create_note s note).resp.map noteOfRow

/-- `list_notes` (lines 123-160).  `if residentName:` is Python truthiness
on `Optional[str]`: `None` and `""` both take the unfiltered branch;
otherwise `WHERE residentName = ?`.  `conn.close()` (line 146) runs before
the empty check, so the connection is closed on both exits.  The 404 raised
for an empty result (line 150) is raised inside the `try`, caught by
`except Exception` (line 158), and re-raised as a 500. -/
def list_notes (s : Store) (residentName : Option String) : HRes (List StoredNote) :=
  let notes :=
    match residentName with
    | some r => if r != "" then s.rows.filter (fun row => row.residentName == r) else s.rows
    | none => s.rows
  if notes.isEmpty then
    { resp := .error (wrap500 (.http 404 "No notes found.")),
      store := s, connOpened := true, connClosed := true }
  else
    { resp := .ok notes, store := s, connOpened := true, connClosed := true }

/-- `update_note` (lines 163-191).  `UPDATE ... WHERE id = ?` overwrites the
four text columns of every matching row; `cursor.rowcount` is the number of
matched rows.  When `rowcount == 0` the handler raises 404 *before*
`conn.commit()`/`conn.close()` — the connection is left open — and the
`except Exception` clause (line 190) turns the 404 into a 500.  Otherwise it
commits, closes, and returns the caller-supplied `note` unchanged (no
re-read of the row). -/
def update_note (s : Store) (id : Int) (note : Note) : HRes Note :=
  let matched := s.rows.countP (fun r => (r.id : Int) == id)
  let rows' := s.rows.map (fun r =>
    if (r.id : Int) == id then
      { r with residentName := note.residentName, dateTime := note.dateTime,
               content := note.content, authorName := note.authorName }
    else r)
  if matched = 0 then
    { resp := .error (wrap500 (.http 404 "Note not found.")),
      store := s, connOpened := true, connClosed := false }
  else
    { resp := .ok note, store := { s with rows := rows' },
      connOpened := true, connClosed := true }

/-- `delete_note` (lines 193-220).  The `id <= 0` guard (line 199) runs
*before* the `try` block and before any `get_db_connection()`, so its 400
propagates uncaught and no store call happens.  Inside the try,
`DELETE FROM notes WHERE id = ?` runs, then commit and close (lines
206-209); only afterwards is `deleted_rows == 0` checked, so the 404 raised
there (line 213) is caught by `except Exception` (line 218) and re-raised
as a 500.  On success the body is
`{"message": f"Note {id} deleted successfully."}`. -/
def delete_note (s : Store) (id : Int) : HRes Msg :=
  if id ≤ 0 then
    { resp := .error (.http 400 "Invalid note ID received"),
      store := s, connOpened := false, connClosed := true }
  else
    let deleted_rows := s.rows.countP (fun r => (r.id : Int) == id)
    let s' : Store := { s with rows := s.rows.filter (fun r => !((r.id : Int) == id)) }
    if deleted_rows = 0 then
      { resp := .error (wrap500 (.http 404 ("Note with ID " ++ toString id ++ " not found."))),
        store := s', connOpened := true, connClosed := true }
    else
      { resp := .ok ⟨"Note " ++ toString id ++ " deleted successfully."⟩,
        store := s', connOpened := true, connClosed := true }

/-- One caller-visible operation against the service, for reasoning about
sequences of requests. -/
inductive Op where
  | create (n : Note)
  | update (id : Int) (n : Note)
  | delete (id : Int)
  | list (f : Option String)

/-- Run one operation: the store it leaves behind, and the list of ids the
store assigned during it (one id for a create, none otherwise). -/
def applyOp (s : Store) : Op → Store × List Nat
  | .create n => ((create_note s n).store, [s.seq + 1])
  | .update id n => ((update_note s id n).store, [])
  | .delete id => ((delete_note s id).store, [])
  | .list f => ((list_notes s f).store, [])

/-- All ids assigned by the store along a sequence of operations, in
issuance order. -/
def traceIds : Store → List Op → List Nat
  | _, [] => []
  | s, op :: ops => (applyOp s op).2 ++ traceIds (applyOp s op).1 ops

/-! ### Helper lemmas -/

/-- A create advances the sequence by exactly one. -/
theorem create_note_store_seq (s : Store) (n : Note) :
    (create_note s n).store.seq = s.seq + 1 := rfl

/-- No operation ever decreases the `AUTOINCREMENT` sequence. -/
theorem applyOp_seq_le (s : Store) (op : Op) : s.seq ≤ (applyOp s op).1.seq := by
  cases op with
  | create n => simp [applyOp, create_note, storeInsert]
  | update id n =>
    simp only [applyOp, update_note]
    split <;> simp
  | delete id =>
    simp only [applyOp, delete_note]
    split
    · simp
    · split <;> simp
  | list f =>
    simp only [applyOp, list_notes]
    split <;> simp

/-- Every id assigned along a trace exceeds the starting sequence value. -/
theorem traceIds_gt (s : Store) (ops : List Op) : ∀ i ∈ traceIds s ops, s.seq < i := by
  induction ops generalizing s with
  | nil => intro i hi; simp [traceIds] at hi
  | cons op ops ih =>
    intro i hi
    rw [traceIds] at hi
    rcases List.mem_append.mp hi with h | h
    · cases op with
      | create n =>
        simp only [applyOp, List.mem_singleton] at h
        omega
      | update id n => simp [applyOp] at h
      | delete id => simp [applyOp] at h
      | list f => simp [applyOp] at h
    · exact Nat.lt_of_le_of_lt (applyOp_seq_le s op) (ih _ i h)

/-- The ids assigned along any trace are strictly increasing in issuance
order. -/
theorem traceIds_pairwise_lt (s : Store) (ops : List Op) :
    List.Pairwise (· < ·) (traceIds s ops) := by
  induction ops generalizing s with
  | nil => exact List.Pairwise.nil
  | cons op ops ih =>
    rw [traceIds]
    cases op with
    | create n =>
      simp only [applyOp, List.singleton_append]
      refine List.Pairwise.cons ?_ (ih _)
      intro j hj
      have hgt := traceIds_gt (create_note s n).store ops j hj
      rw [create_note_store_seq] at hgt
      omega
    | update id n => simpa [applyOp] using ih _
    | delete id => simpa [applyOp] using ih _
    | list f => simpa [applyOp] using ih _

/-! ### Claims -/

/-- C1: the claim says a list request whose query matches zero notes yields
a 404 NotFound.  The code does raise `HTTPException(404, "No notes found.")`
(line 150), but that raise sits inside the handler's own `try`, whose
`except Exception` clause (lines 158-160) catches it and re-raises it as a
500 — so the caller observes 500, not 404, both with a non-matching filter
and on an empty table.  This theorem evaluates the code at the failing
inputs. -/
theorem C1_empty_result_is_500 :
    (list_notes seedStore (some "Charlie")).resp
      = .error (.http 500 "Internal Server Error: 404: No notes found.") ∧
    (list_notes emptyStore none).resp
      = .error (.http 500 "Internal Server Error: 404: No notes found.") :=
  ⟨rfl, rfl⟩

/-- C2 counterexample: the claim says a create with an empty-string field is
rejected with a ValidationFailure and inserts no row.  In the code the
pydantic `Note` model only requires each field to be a `str`, so an empty
`authorName` passes validation, the handler runs, and a row is inserted:
on the seed store the request succeeds with id 3 and the table grows from
2 to 3 rows. -/
theorem C2_empty_string_inserts_row :
    (create_endpoint seedStore
        ⟨some "Carol", some "2024-09-18T09:00:00Z", some "Checked vitals.", some ""⟩).resp
      = .ok ⟨3, "Carol", "2024-09-18T09:00:00Z", "Checked vitals.", ""⟩ ∧
    (create_endpoint seedStore
        ⟨some "Carol", some "2024-09-18T09:00:00Z", some "Checked vitals.", some ""⟩).store.rows.length
      = seedStore.rows.length + 1 :=
  ⟨rfl, rfl⟩

/-- C2 (amended): a create request in which any of the four required fields
is MISSING is rejected by pydantic validation before the handler runs: the
response is the 422 validation error, the store is unchanged, and no
database connection is opened (no Store operation).  (An empty string,
however, passes validation — see the counterexample.) -/
theorem C2_missing_field_rejected (s : Store) (r : RawNote)
    (h : r.residentName = none ∨ r.dateTime = none ∨ r.content = none ∨ r.authorName = none) :
    (create_endpoint s r).resp = .error (.validation "field required") ∧
    (create_endpoint s r).store = s ∧
    (create_endpoint s r).connOpened = false := by
  rcases r with ⟨a, b, c, d⟩
  cases a <;> cases b <;> cases c <;> cases d <;>
    simp_all [create_endpoint, parseNote]

/-- C2 witness: the amended theorem applied to a concrete request missing
`authorName` against the seed store. -/
theorem C2_missing_field_rejected_witness :
    ((⟨some "Carol", some "2024-09-18T09:00:00Z", some "Checked vitals.", none⟩ : RawNote).authorName
        = none) ∧
    ((create_endpoint seedStore
        ⟨some "Carol", some "2024-09-18T09:00:00Z", some "Checked vitals.", none⟩).resp
        = .error (.validation "field required") ∧
      (create_endpoint seedStore
        ⟨some "Carol", some "2024-09-18T09:00:00Z", some "Checked vitals.", none⟩).store = seedStore ∧
      (create_endpoint seedStore
        ⟨some "Carol", some "2024-09-18T09:00:00Z", some "Checked vitals.", none⟩).connOpened = false) :=
  ⟨rfl, C2_missing_field_rejected seedStore _ (Or.inr (Or.inr (Or.inr rfl)))⟩

/-- C3: the claim says an update whose id matches no note yields 404, and a
matching update yields 200 with the caller-supplied note.  The second half
holds (the handler returns its `note` argument unchanged), but the 404
raised on no match (line 186) is inside the `try`, so `except Exception`
(lines 190-191) converts it to a 500.  Evaluation at the failing input
(id 99 against the seed store) and at a matching input (id 1, content
changed from the stored row to show no re-read happens). -/
theorem C3_update_miss_is_500 :
    (update_note seedStore 99
        ⟨"Alice Johnson", "2024-09-17T10:30:00Z", "Updated content", "Nurse Smith"⟩).resp
      = .error (.http 500 "Internal Server Error: 404: Note not found.") ∧
    (update_note seedStore 1
        ⟨"Alice Johnson", "2024-09-17T10:30:00Z", "Updated content", "Nurse Smith"⟩).resp
      = .ok ⟨"Alice Johnson", "2024-09-17T10:30:00Z", "Updated content", "Nurse Smith"⟩ :=
  ⟨rfl, rfl⟩

/-- C4: the claim says a successful create's response body carries the
Store-assigned `id` plus the four submitted fields.  The handler's return
dict does carry the id (first conjunct: id 3 on the seed store), but the
endpoint declares `response_model=Note` (line 88) and `Note` has no `id`
field, so the serialized wire body is exactly the four submitted fields
(second conjunct) — identical for two stores that would assign different
ids (third conjunct), i.e. the id never reaches the caller. -/
theorem C4_wire_body_lacks_id :
    (create_note seedStore
        ⟨"Carol", "2024-09-18T09:00:00Z", "Checked vitals.", "Nurse Kim"⟩).resp
      = .ok ⟨3, "Carol", "2024-09-18T09:00:00Z", "Checked vitals.", "Nurse Kim"⟩ ∧
    create_wire seedStore ⟨"Carol", "2024-09-18T09:00:00Z", "Checked vitals.", "Nurse Kim"⟩
      = .ok ⟨"Carol", "2024-09-18T09:00:00Z", "Checked vitals.", "Nurse Kim"⟩ ∧
    create_wire seedStore ⟨"Carol", "2024-09-18T09:00:00Z", "Checked vitals.", "Nurse Kim"⟩
      = create_wire emptyStore ⟨"Carol", "2024-09-18T09:00:00Z", "Checked vitals.", "Nurse Kim"⟩ :=
  ⟨rfl, rfl, rfl⟩

/-- C5: the claim says deleting id 1 from the seed store returns the
confirmation message and that repeating the delete (or updating the deleted
id) yields 404.  The first delete does return
`{"message": "Note 1 deleted successfully."}`, but the 404 raised on the
repeat (line 213) and on the subsequent update (line 186) sits inside each
handler's `try`, so `except Exception` converts both to 500s. -/
theorem C5_delete_then_repeat :
    (delete_note seedStore 1).resp = .ok ⟨"Note 1 deleted successfully."⟩ ∧
    (delete_note (delete_note seedStore 1).store 1).resp
      = .error (.http 500 "Internal Server Error: 404: Note with ID 1 not found.") ∧
    (update_note (delete_note seedStore 1).store 1
        ⟨"Alice Johnson", "2024-09-17T10:30:00Z", "Back again", "Nurse Smith"⟩).resp
      = .error (.http 500 "Internal Server Error: 404: Note not found.") :=
  ⟨rfl, rfl, rfl⟩

/-- C6: a delete whose id is not a positive integer is rejected with the
400 `"Invalid note ID received"` HTTPException raised before the `try`
block (line 199), so it is not caught by `except Exception`: the caller
sees 400 (never 404), no database connection is opened (no Store call),
and the stored notes are unchanged. -/
theorem C6_nonpositive_id_rejected (s : Store) (id : Int) (h : id ≤ 0) :
    delete_note s id =
      { resp := .error (.http 400 "Invalid note ID received"),
        store := s, connOpened := false, connClosed := true } := by
  unfold delete_note
  rw [if_pos h]

/-- C6 witness: the theorem at id 0 against the seed store. -/
theorem C6_nonpositive_id_rejected_witness :
    ((0 : Int) ≤ 0) ∧
    delete_note seedStore 0 =
      { resp := .error (.http 400 "Invalid note ID received"),
        store := seedStore, connOpened := false, connClosed := true } :=
  ⟨by decide, C6_nonpositive_id_rejected seedStore 0 (by decide)⟩

/-- C7 counterexample: the claim says every handler closes its database
connection on every exit path.  On the not-found path of `update_note` the
404 is raised (line 186) before `conn.close()` (line 188), so the handler
raises with the connection still open: at id 99 on the seed store a
connection is opened and never closed. -/
theorem C7_update_leaks_connection :
    (update_note seedStore 99
        ⟨"Alice Johnson", "2024-09-17T10:30:00Z", "Updated content", "Nurse Smith"⟩).connOpened
      = true ∧
    (update_note seedStore 99
        ⟨"Alice Johnson", "2024-09-17T10:30:00Z", "Updated content", "Nurse Smith"⟩).connClosed
      = false :=
  ⟨rfl, rfl⟩

/-- C7 (amended): create, list, and delete close the connection on every
modelled exit path (for delete's non-positive-id rejection no connection is
even opened); update closes it exactly when some row matched the id — on
the not-found path the handler raises before `conn.close()`, leaving the
connection open. -/
theorem C7_connection_discipline (s : Store) (r : RawNote) (f : Option String)
    (idU idD : Int) (n : Note) :
    (create_endpoint s r).connClosed = true ∧
    (list_notes s f).connClosed = true ∧
    (delete_note s idD).connClosed = true ∧
    (update_note s idU n).connClosed = s.rows.any (fun row => (row.id : Int) == idU) := by
  refine ⟨?_, ?_, ?_, ?_⟩
  · unfold create_endpoint
    cases parseNote r <;> rfl
  · simp only [list_notes]
    split <;> rfl
  · simp only [delete_note]
    split
    · rfl
    · split <;> rfl
  · simp only [update_note]
    by_cases h : s.rows.countP (fun row => (row.id : Int) == idU) = 0
    · rw [if_pos h]
      symm
      rw [List.any_eq_false]
      exact List.countP_eq_zero.mp h
    · rw [if_neg h]
      symm
      rw [List.any_eq_true]
      exact List.countP_pos_iff.mp (Nat.pos_of_ne_zero h)

/-- C8: along any sequence of operations (creates interleaved with updates,
deletes and lists) against one store, the ids the Store assigns to creates
are strictly increasing in issuance order — hence pairwise distinct,
non-decreasing, and never reused even after the note holding an id is
deleted (a delete never lowers the `AUTOINCREMENT` sequence). -/
theorem C8_ids_unique_monotonic (s : Store) (ops : List Op) :
    List.Pairwise (· < ·) (traceIds s ops) ∧
    List.Pairwise (· ≠ ·) (traceIds s ops) :=
  ⟨traceIds_pairwise_lt s ops,
   (traceIds_pairwise_lt s ops).imp Nat.ne_of_lt⟩

/-- C9: starting from a store holding no note for resident `R`, creating a
note `(R, T, C, A)` (all fields non-empty) and then listing with filter
`residentName=R` returns exactly one entry: the created note with its
assigned id `s.seq + 1`, which is also what the create reported. -/
theorem C9_roundtrip (s : Store) (R T C A : String)
    (hR : ∀ r ∈ s.rows, r.residentName ≠ R) (hRne : R ≠ "")
    (hT : T ≠ "") (hC : C ≠ "") (hA : A ≠ "") :
    (create_note s ⟨R, T, C, A⟩).resp = .ok ⟨s.seq + 1, R, T, C, A⟩ ∧
    (list_notes (create_note s ⟨R, T, C, A⟩).store (some R)).resp
      = .ok [⟨s.seq + 1, R, T, C, A⟩] := by
  refine ⟨rfl, ?_⟩
  have hfil : s.rows.filter (fun row => row.residentName == R) = [] := by
    rw [List.filter_eq_nil_iff]
    intro a ha
    simpa using hR a ha
  have hbne : (R != "") = true := bne_iff_ne.mpr hRne
  simp [list_notes, create_note, storeInsert, hbne, List.filter_append, hfil]

/-- C9 witness: the theorem at the seed store with the fresh resident
`"Carol"`. -/
theorem C9_roundtrip_witness :
    (∀ r ∈ seedStore.rows, r.residentName ≠ "Carol") ∧ ("Carol" : String) ≠ "" ∧
    ("2024-09-18T09:00:00Z" : String) ≠ "" ∧ ("Checked vitals." : String) ≠ "" ∧
    ("Nurse Kim" : String) ≠ "" ∧
    ((create_note seedStore ⟨"Carol", "2024-09-18T09:00:00Z", "Checked vitals.", "Nurse Kim"⟩).resp
        = .ok ⟨seedStore.seq + 1, "Carol", "2024-09-18T09:00:00Z", "Checked vitals.", "Nurse Kim"⟩ ∧
      (list_notes
          (create_note seedStore
            ⟨"Carol", "2024-09-18T09:00:00Z", "Checked vitals.", "Nurse Kim"⟩).store
          (some "Carol")).resp
        = .ok [⟨seedStore.seq + 1, "Carol", "2024-09-18T09:00:00Z", "Checked vitals.", "Nurse Kim"⟩]) :=
  ⟨by decide, by decide, by decide, by decide, by decide,
   C9_roundtrip seedStore "Carol" "2024-09-18T09:00:00Z" "Checked vitals." "Nurse Kim"
     (by decide) (by decide) (by decide) (by decide) (by decide)⟩

/-- C10: a list request whose `residentName` filter is the empty string is
Python-falsy (`if residentName:` line 140), so the handler runs the
unfiltered query, exactly as when no filter is supplied: the two requests
have identical outcomes on every store. -/
theorem C10_empty_filter_lists_all (s : Store) :
    list_notes s (some "") = list_notes s none := rfl

end CareNotes
